import Mathlib

/-!
Verification of the MCP health-check client (check_mcp_health.py) and the
Streamable-HTTP test client (test_streamable_http.py).

The Python sources are shallowly embedded: each read loop becomes a
structurally recursive Lean function over the list of text lines produced by
the HTTP client's line iterator, and Python exceptions that escape a loop are
modelled as explicit `crash` outcomes.  The external JSON parser
(Python's json.loads, an out-of-scope collaborator) is passed in as a
parameter `parse : String -> Option Json`; `none` models a JSONDecodeError.
-/

/-- JSON values as produced by json.loads (numbers restricted to integers,
which is all the concrete examples need). -/
inductive Json where
  | null
  | bool (b : Bool)
  | num (n : Int)
  | str (s : String)
  | arr (elems : List Json)
  | obj (fields : List (String × Json))

/-- Python truthiness of a decoded JSON value: None, False, 0, "", [] and
an empty dict are falsy, everything else truthy. -/
def Json.truthy : Json → Bool
  | Json.null => false
  | Json.bool b => b
  | Json.num n => n != 0
  | Json.str s => s != ""
  | Json.arr xs => !xs.isEmpty
  | Json.obj fs => !fs.isEmpty

/-- Characters stripped by Python's str.strip() (ASCII whitespace). -/
def pyIsSpace (c : Char) : Bool :=
  c == ' ' || c == '\t' || c == '\n' || c == '\r' || c == '\x0b' || c == '\x0c'

/-- Strip leading and trailing whitespace from a character list. -/
def stripChars (l : List Char) : List Char :=
  ((l.dropWhile pyIsSpace).reverse.dropWhile pyIsSpace).reverse

/-- Python's s.strip(): remove all leading and trailing whitespace. -/
def pyStrip (s : String) : String := String.mk (stripChars s.toList)

/-- Python's s[n:] slice. -/
def strDrop (s : String) (n : Nat) : String := String.mk (s.toList.drop n)

/-- Python's s.startswith(p). -/
def strStarts (p s : String) : Bool := p.toList.isPrefixOf s.toList

/-- Python's `pat in s` substring test on strings. -/
def subList (pat : List Char) : List Char → Bool
  | [] => pat.isEmpty
  | c :: rest => pat.isPrefixOf (c :: rest) || subList pat rest

/-- Substring containment, used to model `"result" in s` when the decoded
JSON is a string. -/
def strContainsSub (s pat : String) : Bool := subList pat.toList s.toList

/-- Lookup of a key in a decoded JSON object (Python d[k] / d.get(k)). -/
def lookupField (fs : List (String × Json)) (k : String) : Option Json :=
  match fs with
  | [] => none
  | (k', v) :: rest => if k' == k then some v else lookupField rest k

/-- What the client prints on a success path: the doubly-decoded health
report, the outer JSON-RPC message, or the raw frame text. -/
inductive Printed where
  | health (j : Json)
  | outer (j : Json)
  | raw (s : String)

/-- Result of the envelope-unwrapping code on one decoded message: either a
printed value (exit 0) or an uncaught Python exception. -/
inductive CorrOut where
  | ok (p : Printed)
  | crash

/-- The tool-result unwrapping of check_mcp_health.py lines 98-116, with the
surrounding `except json.JSONDecodeError` (line 117) folded in: an inner
json.loads failure prints the raw `data` and still returns 0, while
AttributeError/KeyError/TypeError raised by the duck-typed accesses are not
caught and crash the program.  `data` is the raw frame text, `j` its outer
json.loads result. -/
def correlateSse (parse : String → Option Json) (data : String) (j : Json) : CorrOut :=
  match j with
  | Json.obj fs =>
    match lookupField fs "result" with
    | none => CorrOut.ok (Printed.outer (Json.obj fs))
    | some result =>
      match result with
      | Json.arr elems =>
        match elems with
        | [] => CorrOut.ok (Printed.outer (Json.obj fs))
        | first :: _ =>
          match first with
          | Json.obj fs0 =>
            let content := (lookupField fs0 "content").getD (Json.arr [])
            if content.truthy then
              match content with
              | Json.arr (c0 :: _) =>
                match c0 with
                | Json.obj cfs =>
                  let text := (lookupField cfs "text").getD (Json.str "")
                  if text.truthy then
                    match text with
                    | Json.str s =>
                      match parse s with
                      | some h => CorrOut.ok (Printed.health h)
                      | none => CorrOut.ok (Printed.raw data)
                    | _ => CorrOut.crash
                  else CorrOut.ok (Printed.outer (Json.obj fs))
                | _ => CorrOut.crash
              | _ => CorrOut.crash
            else CorrOut.ok (Printed.outer (Json.obj fs))
          | _ => CorrOut.crash
      | _ => CorrOut.ok (Printed.outer (Json.obj fs))
  | Json.arr xs =>
    if xs.any (fun x => match x with | Json.str s => s == "result" | _ => false) then
      CorrOut.crash
    else CorrOut.ok (Printed.outer (Json.arr xs))
  | Json.str s =>
    if strContainsSub s "result" then CorrOut.crash
    else CorrOut.ok (Printed.outer (Json.str s))
  | _ => CorrOut.crash

/-- The tool-result unwrapping of test_streamable_http.py lines 171-184: same
shape checks as correlateSse, except the extra `isinstance(content, list)`
check makes a truthy non-list `content` fall back instead of crashing. -/
def correlateStream (parse : String → Option Json) (data : String) (j : Json) : CorrOut :=
  match j with
  | Json.obj fs =>
    match lookupField fs "result" with
    | none => CorrOut.ok (Printed.outer (Json.obj fs))
    | some result =>
      match result with
      | Json.arr elems =>
        match elems with
        | [] => CorrOut.ok (Printed.outer (Json.obj fs))
        | first :: _ =>
          match first with
          | Json.obj fs0 =>
            let content := (lookupField fs0 "content").getD (Json.arr [])
            match content with
            | Json.arr (c0 :: _) =>
              match c0 with
              | Json.obj cfs =>
                let text := (lookupField cfs "text").getD (Json.str "")
                if text.truthy then
                  match text with
                  | Json.str s =>
                    match parse s with
                    | some h => CorrOut.ok (Printed.health h)
                    | none => CorrOut.ok (Printed.raw data)
                  | _ => CorrOut.crash
                else CorrOut.ok (Printed.outer (Json.obj fs))
              | _ => CorrOut.crash
            | _ => CorrOut.ok (Printed.outer (Json.obj fs))
          | _ => CorrOut.crash
      | _ => CorrOut.ok (Printed.outer (Json.obj fs))
  | Json.arr xs =>
    if xs.any (fun x => match x with | Json.str s => s == "result" | _ => false) then
      CorrOut.crash
    else CorrOut.ok (Printed.outer (Json.arr xs))
  | Json.str s =>
    if strContainsSub s "result" then CorrOut.crash
    else CorrOut.ok (Printed.outer (Json.str s))
  | _ => CorrOut.crash

/-- Outcome of the SSE response-reading loop (check_mcp_health.py
lines 82-122). -/
inductive RespOutcome where
  | response (p : Printed)
  | noResponse
  | crash

/-- The SSE response-reading loop of check_mcp_health.py lines 82-122.
`rr` is the `response_received` flag; it starts false and is set (never
reset) by an `event:` line whose stripped remainder is "message".  A
`data:` line is only examined once `rr` is true; its payload is
`line[5:].strip()`, and is acted on only when non-empty and not "[DONE]".
Reaching the end of the stream yields the "No response received" branch. -/
def respLoop (parse : String → Option Json) : Bool → List String → RespOutcome
  | _, [] => RespOutcome.noResponse
  | rr, l :: ls =>
    if l == "" then respLoop parse rr ls
    else if strStarts "event:" l then
      respLoop parse (rr || (pyStrip (strDrop l 6) == "message")) ls
    else if strStarts "data:" l && rr then
      let data := pyStrip (strDrop l 5)
      if data != "" && data != "[DONE]" then
        match parse data with
        | none => RespOutcome.response (Printed.raw data)
        | some j =>
          match correlateSse parse data j with
          | CorrOut.ok p => RespOutcome.response p
          | CorrOut.crash => RespOutcome.crash
      else respLoop parse rr ls
    else respLoop parse rr ls

/-- Whether a line is an `event:` line announcing the "message" event, as
tested by check_mcp_health.py lines 87-90. -/
def isMsgEventLine (l : String) : Bool :=
  strStarts "event:" l && (pyStrip (strDrop l 6) == "message")

/-- Whether the SSE response loop, started with flag `rr`, will encounter a
qualifying data frame (a `data:` line after the response_received flag is
set whose stripped payload is non-empty and not "[DONE]") before the stream
ends.  Mirrors the branch structure of respLoop. -/
def hasQual : Bool → List String → Bool
  | _, [] => false
  | rr, l :: ls =>
    if l == "" then hasQual rr ls
    else if strStarts "event:" l then
      hasQual (rr || (pyStrip (strDrop l 6) == "message")) ls
    else if strStarts "data:" l && rr then
      let data := pyStrip (strDrop l 5)
      if data != "" && data != "[DONE]" then true
      else hasQual rr ls
    else hasQual rr ls

/-- One character of the session-id token class [a-zA-Z0-9_-]. -/
def isTokenChar (c : Char) : Bool :=
  ('a' ≤ c && c ≤ 'z') || ('A' ≤ c && c ≤ 'Z') || ('0' ≤ c && c ≤ '9')
    || c == '_' || c == '-'

/-- The literal part of the session regex. -/
def sidKey : List Char := "sessionId=".toList

/-- Python's re.search with pattern sessionId=([a-zA-Z0-9_-]+): scan left to
right for the first position where the literal "sessionId=" is followed by
at least one token character, and return the maximal (greedy) token run. -/
def reSearchSession : List Char → Option (List Char)
  | [] => none
  | c :: rest =>
    if sidKey.isPrefixOf (c :: rest) then
      let tok := ((c :: rest).drop 10).takeWhile isTokenChar
      if tok.isEmpty then reSearchSession rest else some tok
    else reSearchSession rest

/-- The session-id loop of check_mcp_health.py lines 34-44: consume lines
until a non-empty `data:` line whose stripped payload matches the session
regex; return the session id (if any) together with the lines remaining in
the iterator, which the later response loop continues from. -/
def sessionPhase : List String → Option String × List String
  | [] => (none, [])
  | l :: ls =>
    if l != "" && strStarts "data:" l then
      match reSearchSession (pyStrip (strDrop l 5)).toList with
      | some tok => (some (String.mk tok), ls)
      | none => sessionPhase ls
    else sessionPhase ls

/-- Result of one run of check_mcp_health.py main(). -/
inductive SseResult where
  | connectFail
  | noSession
  | postFail
  | resp (o : RespOutcome)

/-- check_mcp_health.py main(): connect to /sse (failure aborts, exit 1);
read the stream until a session id is found (none found: exit 1); POST the
tools/call request (failure: exit 1); then run the response-reading loop on
the remaining lines of the same stream.  `connectOk` and `postOk` abstract
the two network calls; `lines` is the full line stream of the SSE
response. -/
def sseRun (parse : String → Option Json) (connectOk : Bool)
    (lines : List String) (postOk : Bool) : SseResult :=
  if connectOk then
    match sessionPhase lines with
    | (none, _) => SseResult.noSession
    | (some _, rest) =>
      if postOk then SseResult.resp (respLoop parse false rest)
      else SseResult.postFail
  else SseResult.connectFail

/-- The process exit code of a check_mcp_health.py run.  An uncaught
exception (the crash outcome) makes the interpreter exit 1. -/
def exitCode : SseResult → Nat
  | SseResult.resp (RespOutcome.response _) => 0
  | _ => 1

/-- Outcome of the initialize-response reading loop of
test_streamable_http.py lines 70-81.  A json.loads failure there is caught
only by the step's outer `except Exception` (line 83), so it aborts the
whole step: modelled as crash. -/
inductive InitOut where
  | got (j : Json)
  | noInit
  | crash

/-- The step applied to the first qualifying data payload of the initialize
stream: json.loads, with failure escaping to the outer except. -/
def initStep (parse : String → Option Json) (data : String) : InitOut :=
  match parse data with
  | some j => InitOut.got j
  | none => InitOut.crash

/-- The initialize-response loop of test_streamable_http.py lines 70-77:
take the first line with prefix "data: " whose remainder (line[6:],
nothing stripped) is non-empty and not "[DONE]", and json.loads it. -/
def initReadLoop (parse : String → Option Json) : List String → InitOut
  | [] => InitOut.noInit
  | l :: ls =>
    if strStarts "data: " l then
      let data := strDrop l 6
      if data != "" && data != "[DONE]" then initStep parse data
      else initReadLoop parse ls
    else initReadLoop parse ls

/-- Outcome of the tool-response reading loop of test_streamable_http.py
lines 162-188.  Falling off the end of the loop still reaches the
"Test Complete" return 0; a crash is caught by the step's `except Exception`
and yields return 1. -/
inductive ToolOut where
  | printed (p : Printed)
  | finished
  | crash

/-- The step applied to the first qualifying data payload of the tool
stream: json.loads with JSONDecodeError printing the raw text (then
break, exit 0), and the unwrap of lines 170-184 applied on success. -/
def dataStepStream (parse : String → Option Json) (data : String) : ToolOut :=
  match parse data with
  | none => ToolOut.printed (Printed.raw data)
  | some j =>
    match correlateStream parse data j with
    | CorrOut.ok p => ToolOut.printed p
    | CorrOut.crash => ToolOut.crash

/-- The tool-response loop of test_streamable_http.py lines 162-188: take
the first line with prefix "data: " whose remainder (line[6:]) is non-empty
and not "[DONE]", and process it. -/
def streamToolLoop (parse : String → Option Json) : List String → ToolOut
  | [] => ToolOut.finished
  | l :: ls =>
    if strStarts "data: " l then
      let data := strDrop l 6
      if data != "" && data != "[DONE]" then dataStepStream parse data
      else streamToolLoop parse ls
    else streamToolLoop parse ls

/-- The remainder of the first qualifying "data: " line of a stream,
expressed without the loop: filter to "data: " lines, take each remainder,
keep the non-empty non-"[DONE]" ones, and take the head. -/
def firstQual (lines : List String) : Option String :=
  (((lines.filter (fun l => strStarts "data: " l)).map
      (fun l => strDrop l 6)).filter
        (fun d => d != "" && d != "[DONE]")).head?

/-- The value put in the Mcp-Session-Id header slot of the notify and tool
requests: `if session_id: headers["Mcp-Session-Id"] = session_id`, where
session_id is response.headers.get("Mcp-Session-Id") — so a header is sent
exactly when the captured value is present and non-empty (Python
truthiness). -/
def sessionHdrVal (sid : Option String) : Option String :=
  match sid with
  | some s => if s != "" then some s else none
  | none => none

/-- Abstracted inputs of one test_streamable_http.py run: whether the
initialize POST (with raise_for_status) succeeded, the captured
Mcp-Session-Id response header, the initialize response's line stream, the
notify step's outcome (none = exception, some n = HTTP status n), whether
the tools/call POST succeeded, and the tool response's line stream. -/
structure StreamInput where
  initOk : Bool
  sessionHeader : Option String
  initLines : List String
  notifResult : Option Nat
  toolOk : Bool
  toolLines : List String

/-- Observable outcome of a test_streamable_http.py run: exit code, and for
the notify and tools/call POSTs whether the request was issued and with
which Mcp-Session-Id header (none = request never issued; some h = issued
with header slot h). -/
structure StreamResult where
  exit : Nat
  notifHeader : Option (Option String)
  toolHeader : Option (Option String)

/-- test_streamable_http.py test_streamable_http(): initialize (POST
failure, no qualifying data frame, a json.loads failure, or a falsy decoded
response all abort with exit 1); then the initialized notification, whose
outcome is only printed; then the tools/call step (POST failure or an
uncaught unwrap exception exits 1, everything else exits 0).  The
Mcp-Session-Id header slot of both later requests is sessionHdrVal of the
captured header. -/
def streamableRun (parse : String → Option Json) (inp : StreamInput) : StreamResult :=
  if inp.initOk then
    match initReadLoop parse inp.initLines with
    | InitOut.crash => StreamResult.mk 1 none none
    | InitOut.noInit => StreamResult.mk 1 none none
    | InitOut.got j =>
      if j.truthy then
        let hdr := sessionHdrVal inp.sessionHeader
        if inp.toolOk then
          match streamToolLoop parse inp.toolLines with
          | ToolOut.crash => StreamResult.mk 1 (some hdr) (some hdr)
          | ToolOut.printed _ => StreamResult.mk 0 (some hdr) (some hdr)
          | ToolOut.finished => StreamResult.mk 0 (some hdr) (some hdr)
        else StreamResult.mk 1 (some hdr) (some hdr)
      else StreamResult.mk 1 none none
  else StreamResult.mk 1 none none

/-- An SSE frame as described by the specification. -/
structure SseFrame where
  eventType : Option String
  data : String

/-- Newline-joining of accumulated data lines. -/
def joinNl : List String → String
  | [] => ""
  | [x] => x
  | x :: rest => x ++ "\n" ++ joinNl rest

/-- Modelled from the spec: the SSE Line Demultiplexer of spec section 4.2,
which neither source file implements as such — blank line emits the
buffered frame (if non-empty), `event:` sets the pending event type,
`data:` appends the trimmed remainder (newline-joined), other lines are
ignored, and a trailing non-empty buffer is emitted at stream end.  Used
only to compare the spec's claimed frame assembly with what the code
actually does. -/
def specDemuxAux : Option String → List String → List String → List SseFrame
  | evt, datas, [] =>
    if evt.isSome || !datas.isEmpty then [SseFrame.mk evt (joinNl datas)] else []
  | evt, datas, l :: ls =>
    if l == "" then
      if evt.isSome || !datas.isEmpty then
        SseFrame.mk evt (joinNl datas) :: specDemuxAux none [] ls
      else specDemuxAux none [] ls
    else if strStarts "event:" l then
      specDemuxAux (some (pyStrip (strDrop l 6))) datas ls
    else if strStarts "data:" l then
      specDemuxAux evt (datas ++ [pyStrip (strDrop l 5)]) ls
    else specDemuxAux evt datas ls

/-- Modelled from the spec: run the spec's demultiplexer on a line stream. -/
def specDemux (lines : List String) : List SseFrame := specDemuxAux none [] lines

/-- Stand-in for the external json.loads on the finitely many payloads used
in concrete examples; it agrees with json.loads there ("true" is valid
JSON, the object literals decode as listed, and bare words like "hello",
"A" or "x" raise JSONDecodeError, modelled as none). -/
def jsonLoadsStub : String → Option Json := fun s =>
  if s == "true" then some (Json.bool true)
  else if s == "\x7b\"result\":[5]\x7d" then
    some (Json.obj [("result", Json.arr [Json.num 5])])
  else if s == "\x7b\"result\":\x7b\"a\":1\x7d\x7d" then
    some (Json.obj [("result", Json.obj [("a", Json.num 1)])])
  else none

/-! ## Helper lemmas -/

/-- The SSE response loop returns the "No response received" branch exactly
when no qualifying data frame occurs in the stream. -/
theorem respLoop_noResponse_iff (parse : String → Option Json) :
    ∀ (ls : List String) (rr : Bool),
      respLoop parse rr ls = RespOutcome.noResponse ↔ hasQual rr ls = false := by
  intro ls
  induction ls with
  | nil => intro rr; simp [respLoop, hasQual]
  | cons l ls ih =>
    intro rr
    by_cases h1 : (l == "") = true
    · simp [respLoop, hasQual, h1, ih]
    · by_cases h2 : strStarts "event:" l = true
      · simp [respLoop, hasQual, h1, h2, ih]
      · by_cases h3 : (strStarts "data:" l && rr) = true
        · by_cases h4 : (pyStrip (strDrop l 5) != "" && pyStrip (strDrop l 5) != "[DONE]") = true
          · simp only [respLoop, hasQual, h1, h2, h3, h4, if_true, if_false,
              Bool.false_eq_true, if_neg, if_pos]
            cases hp : parse (pyStrip (strDrop l 5)) with
            | none => simp
            | some j =>
              cases hc : correlateSse parse (pyStrip (strDrop l 5)) j <;> simp [hc]
          · simp [respLoop, hasQual, h1, h2, h3, h4, ih]
        · simp [respLoop, hasQual, h1, h2, h3, ih]

/-- Lines before the first "event: message" line leave the response loop's
state untouched: they are all skipped. -/
theorem respLoop_skip (parse : String → Option Json) :
    ∀ (pre post : List String),
      pre.all (fun l => !isMsgEventLine l) = true →
      respLoop parse false (pre ++ post) = respLoop parse false post := by
  intro pre
  induction pre with
  | nil => intro post _; rfl
  | cons l pre ih =>
    intro post hall
    rw [List.all_cons] at hall
    have h1 : isMsgEventLine l = false := by
      cases h : isMsgEventLine l
      · rfl
      · rw [h] at hall; simp at hall
    have h2 : pre.all (fun l => !isMsgEventLine l) = true := by
      cases h : pre.all (fun l => !isMsgEventLine l)
      · rw [h] at hall; simp at hall
      · rfl
    rw [List.cons_append]
    by_cases e1 : (l == "") = true
    · simp [respLoop, e1, ih post h2]
    · by_cases e2 : strStarts "event:" l = true
      · have e3 : (pyStrip (strDrop l 6) == "message") = false := by
          unfold isMsgEventLine at h1
          rw [e2] at h1
          simpa using h1
        simp [respLoop, e1, e2, e3, ih post h2]
      · simp [respLoop, e1, e2, ih post h2]

/-- Unfolding of firstQual over a cons cell. -/
theorem firstQual_cons (l : String) (ls : List String) :
    firstQual (l :: ls) =
      if strStarts "data: " l then
        (if strDrop l 6 != "" && strDrop l 6 != "[DONE]" then some (strDrop l 6)
         else firstQual ls)
      else firstQual ls := by
  by_cases h1 : strStarts "data: " l = true
  · by_cases h2 : (strDrop l 6 != "" && strDrop l 6 != "[DONE]") = true
    · simp [firstQual, h1, h2, List.filter_cons, List.map_cons]
    · simp [firstQual, h1, h2, List.filter_cons, List.map_cons]
  · simp [firstQual, h1, List.filter_cons]

/-- The tool-response loop acts on exactly the first qualifying "data: "
line of the stream, independent of any blank-line block structure. -/
theorem streamToolLoop_eq_firstQual (parse : String → Option Json) :
    ∀ ls : List String,
      streamToolLoop parse ls =
        Option.elim (firstQual ls) ToolOut.finished (dataStepStream parse) := by
  intro ls
  induction ls with
  | nil => rfl
  | cons l ls ih =>
    rw [firstQual_cons]
    by_cases h1 : strStarts "data: " l = true
    · by_cases h2 : (strDrop l 6 != "" && strDrop l 6 != "[DONE]") = true
      · simp [streamToolLoop, h1, h2, Option.elim]
      · simp [streamToolLoop, h1, h2, ih]
    · simp [streamToolLoop, h1, ih]

/-- The initialize-response loop acts on exactly the first qualifying
"data: " line of the stream. -/
theorem initReadLoop_eq_firstQual (parse : String → Option Json) :
    ∀ ls : List String,
      initReadLoop parse ls =
        Option.elim (firstQual ls) InitOut.noInit (initStep parse) := by
  intro ls
  induction ls with
  | nil => rfl
  | cons l ls ih =>
    rw [firstQual_cons]
    by_cases h1 : strStarts "data: " l = true
    · by_cases h2 : (strDrop l 6 != "" && strDrop l 6 != "[DONE]") = true
      · simp [initReadLoop, h1, h2, Option.elim]
      · simp [initReadLoop, h1, h2, ih]
    · simp [initReadLoop, h1, ih]

/-- The head of a dropWhile does not satisfy the predicate. -/
theorem head_dropWhile_not (p : Char → Bool) :
    ∀ (l : List Char) (c : Char), (l.dropWhile p).head? = some c → p c = false := by
  intro l
  induction l with
  | nil => intro c h; simp [List.dropWhile] at h
  | cons a as ih =>
    intro c h
    rw [List.dropWhile_cons] at h
    by_cases hp : p a = true
    · rw [if_pos hp] at h; exact ih c h
    · rw [if_neg hp] at h
      simp only [List.head?_cons, Option.some.injEq] at h
      rw [← h]
      exact Bool.not_eq_true _ ▸ (by simpa using hp)

/-- Every element of a takeWhile satisfies the predicate. -/
theorem all_takeWhile_self (p : Char → Bool) :
    ∀ l : List Char, (l.takeWhile p).all p = true := by
  intro l
  induction l with
  | nil => rfl
  | cons a as ih =>
    rw [List.takeWhile_cons]
    by_cases hp : p a = true
    · simp [hp, ih]
    · simp [hp]

/-- Soundness of the session regex search: a returned token is a non-empty
maximal run of token characters immediately following an occurrence of the
literal "sessionId=" in the input. -/
theorem reSearchSession_sound :
    ∀ (l tok : List Char),
      reSearchSession l = some tok →
      ∃ pre suf, l = pre ++ sidKey ++ tok ++ suf ∧ tok ≠ [] ∧
        tok.all isTokenChar = true ∧
        ∀ c, suf.head? = some c → isTokenChar c = false := by
  intro l
  induction l with
  | nil => intro tok h; simp [reSearchSession] at h
  | cons a as ih =>
    intro tok h
    rw [reSearchSession] at h
    by_cases hp : sidKey.isPrefixOf (a :: as) = true
    · rw [if_pos hp] at h
      by_cases he : (((a :: as).drop 10).takeWhile isTokenChar).isEmpty = true
      · rw [if_pos he] at h
        obtain ⟨pre, suf, hdec, hne, hall, hmax⟩ := ih tok h
        exact ⟨a :: pre, suf, by rw [hdec]; simp, hne, hall, hmax⟩
      · rw [if_neg he] at h
        injection h with h
        obtain ⟨t, ht⟩ := List.isPrefixOf_iff_prefix.1 hp
        have hlen : sidKey.length = 10 := rfl
        have hdrop : (a :: as).drop 10 = t := by
          rw [← ht, ← hlen, List.drop_left]
        refine ⟨[], List.dropWhile isTokenChar t, ?_, ?_, ?_, ?_⟩
        · rw [List.nil_append, ← h, hdrop, List.append_assoc,
            List.takeWhile_append_dropWhile]
          exact ht.symm
        · intro hcon
          rw [h, hcon] at he
          simp at he
        · rw [← h, hdrop]; exact all_takeWhile_self _ _
        · intro c hc
          exact head_dropWhile_not isTokenChar t c hc
    · rw [if_neg hp] at h
      obtain ⟨pre, suf, hdec, hne, hall, hmax⟩ := ih tok h
      exact ⟨a :: pre, suf, by rw [hdec]; simp, hne, hall, hmax⟩

/-- If the literal "sessionId=" starts the input and is followed by at least
one token character, the search succeeds at this position. -/
theorem reSearchSession_here (l : List Char) (hp : sidKey.isPrefixOf l = true)
    (ht : ((l.drop 10).takeWhile isTokenChar).isEmpty = false) :
    (reSearchSession l).isSome = true := by
  cases l with
  | nil => exact absurd hp (by decide)
  | cons a as =>
    rw [reSearchSession, if_pos hp, if_neg (by rw [ht]; exact Bool.false_ne_true)]
    rfl

/-- Completeness of the session regex search: whenever the input contains
"sessionId=" followed by a non-empty run of token characters, the search
returns some token. -/
theorem reSearchSession_complete :
    ∀ (pre t suf : List Char), t ≠ [] → t.all isTokenChar = true →
      (reSearchSession (pre ++ sidKey ++ t ++ suf)).isSome = true := by
  intro pre
  induction pre with
  | nil =>
    intro t suf hne hall
    obtain ⟨c, t', rfl⟩ : ∃ c t', t = c :: t' := by
      cases t with
      | nil => exact absurd rfl hne
      | cons c t' => exact ⟨c, t', rfl⟩
    have hc : isTokenChar c = true := by
      rw [List.all_cons, Bool.and_eq_true] at hall
      exact hall.1
    apply reSearchSession_here
    · rw [List.nil_append, List.append_assoc]
      exact List.isPrefixOf_iff_prefix.2 (List.prefix_append _ _)
    · have hlen : sidKey.length = 10 := rfl
      rw [List.nil_append, List.append_assoc, ← hlen, List.drop_left,
        List.cons_append, List.takeWhile_cons, if_pos hc]
      rfl
  | cons a pre ih =>
    intro t suf hne hall
    have hshape : (a :: pre) ++ sidKey ++ t ++ suf =
        a :: (pre ++ sidKey ++ t ++ suf) := by
      simp [List.cons_append]
    rw [hshape, reSearchSession]
    by_cases hp : sidKey.isPrefixOf (a :: (pre ++ sidKey ++ t ++ suf)) = true
    · rw [if_pos hp]
      by_cases he : (((a :: (pre ++ sidKey ++ t ++ suf)).drop 10).takeWhile
          isTokenChar).isEmpty = true
      · rw [if_pos he]; exact ih t suf hne hall
      · rw [if_neg he]; rfl
    · rw [if_neg hp]; exact ih t suf hne hall

/-! ## Claim theorems -/

/-- Claim C1, counterexample: the SSE run exits 0 for a stream whose only
data frame after the "event: message" line is "hello", which does not even
parse as JSON, so no syntactically valid JSON-RPC response was found —
refuting "success only when a valid JSON-RPC response was found". -/
theorem c1_sse_success_cex :
    exitCode (sseRun jsonLoadsStub true
      ["data: sessionId=ab", "event: message", "data: hello"] true) = 0
    ∧ jsonLoadsStub "hello" = none := ⟨rfl, rfl⟩

/-- Claim C1 (amended): in the SSE flow the run reports success (exit 0)
only when a frame with non-empty data other than "[DONE]" was found after
an "event: message" line (regardless of JSON-RPC validity); for every
stream in which no such frame appears after the session handshake, the run
takes the "No response received" branch and exits 1. -/
theorem c1_sse_success_amended :
    ∀ (parse : String → Option Json) (lines : List String) (sid : String)
      (rest : List String),
      sessionPhase lines = (some sid, rest) →
      ((exitCode (sseRun parse true lines true) = 0 → hasQual false rest = true)
       ∧ (hasQual false rest = false →
           sseRun parse true lines true = SseResult.resp RespOutcome.noResponse
           ∧ exitCode (sseRun parse true lines true) = 1)) := by
  intro parse lines sid rest hsp
  have hrun : sseRun parse true lines true
      = SseResult.resp (respLoop parse false rest) := by
    simp [sseRun, hsp]
  constructor
  · intro h0
    cases hq : hasQual false rest with
    | true => rfl
    | false =>
      have hnr := (respLoop_noResponse_iff parse rest false).2 hq
      rw [hrun, hnr] at h0
      simp [exitCode] at h0
  · intro hq
    have hnr := (respLoop_noResponse_iff parse rest false).2 hq
    rw [hrun, hnr]
    exact ⟨rfl, rfl⟩

/-- Claim C1 witness: a stream whose data frame comes before any
"event: message" line yields the no-response exit. -/
theorem c1_sse_success_amended_witness :
    sseRun jsonLoadsStub true ["data: sessionId=ab", "data: hello"] true
      = SseResult.resp RespOutcome.noResponse :=
  ((c1_sse_success_amended jsonLoadsStub ["data: sessionId=ab", "data: hello"]
      "ab" ["data: hello"] rfl).2 rfl).1

/-- Claim C2, counterexample: on the block with two data lines "A" and "B",
the spec's demultiplexer produces one frame with newline-joined data, but
both clients act on the single payload "A" of the first data line alone. -/
theorem c2_demux_join_cex :
    specDemux ["data: A", "data: B", ""] = [SseFrame.mk none "A\nB"]
    ∧ streamToolLoop jsonLoadsStub ["data: A", "data: B", ""]
        = ToolOut.printed (Printed.raw "A")
    ∧ respLoop jsonLoadsStub false ["event: message", "data: A", "data: B", ""]
        = RespOutcome.response (Printed.raw "A")
    ∧ ("A" : String) ≠ "A\nB" := ⟨rfl, rfl, rfl, by decide⟩

/-- Claim C2 (amended): the code performs no block assembly at all — each
data line is a complete payload by itself: the tool loop's result is
determined by the remainder of the first "data: " line that is non-empty
and not "[DONE]" (never a join of several lines), and blank lines are
skipped by the SSE loop without any frame-boundary effect. -/
theorem c2_per_line_processing_amended :
    (∀ (parse : String → Option Json) (lines : List String),
      streamToolLoop parse lines =
        Option.elim (firstQual lines) ToolOut.finished (dataStepStream parse))
    ∧ (∀ (parse : String → Option Json) (rr : Bool) (ls : List String),
      respLoop parse rr ("" :: ls) = respLoop parse rr ls) :=
  ⟨fun parse lines => streamToolLoop_eq_firstQual parse lines,
   fun _ _ _ => rfl⟩

/-- Claim C3, counterexample: in the SSE flow, the payload of
"data:  x " (two leading spaces, one trailing space after x) is "x" — all
surrounding whitespace is stripped — not " x " as exactly-one-leading-space
stripping would give. -/
theorem c3_strip_cex :
    respLoop jsonLoadsStub false ["event: message", "data:  x "]
      = RespOutcome.response (Printed.raw "x")
    ∧ ("x" : String) ≠ " x " := ⟨rfl, by decide⟩

/-- Claim C3 (amended): the two flows strip differently.  The Streamable
flow removes exactly the six-character prefix "data: " (one space, nothing
more, no trailing strip), while the SSE flow removes the prefix "data:" and
then strips ALL leading and trailing whitespace from the remainder. -/
theorem c3_payload_stripping_amended :
    (∀ rest : List Char,
      strDrop (String.mk ('d' :: 'a' :: 't' :: 'a' :: ':' :: ' ' :: rest)) 6
        = String.mk rest)
    ∧ (∀ rest : List Char,
      pyStrip (strDrop (String.mk ('d' :: 'a' :: 't' :: 'a' :: ':' :: rest)) 5)
        = String.mk (stripChars rest))
    ∧ (∀ (parse : String → Option Json) (rest : List Char) (ls : List String),
      streamToolLoop parse (String.mk ('d' :: 'a' :: 't' :: 'a' :: ':' :: ' ' :: rest) :: ls)
        = if String.mk rest != "" && String.mk rest != "[DONE]"
          then dataStepStream parse (String.mk rest)
          else streamToolLoop parse ls) :=
  ⟨fun _ => rfl, fun _ => rfl, fun parse rest ls => by
    have h1 : strStarts "data: "
        (String.mk ('d' :: 'a' :: 't' :: 'a' :: ':' :: ' ' :: rest)) = true := by
      simp [strStarts, List.isPrefixOf]
    have h2 : strDrop
        (String.mk ('d' :: 'a' :: 't' :: 'a' :: ':' :: ' ' :: rest)) 6
        = String.mk rest := by
      simp [strDrop]
    rw [streamToolLoop, h1, h2]
    simp⟩

/-- Claim C4, counterexample: a JSON parse failure on the initialize step's
first data frame makes the whole Streamable run exit 1 — it is not
surfaced as a pass-through with the run succeeding. -/
theorem c4_init_parse_fail_cex :
    (streamableRun jsonLoadsStub
      (StreamInput.mk true none ["data: hello"] (some 202) true [])).exit = 1
    ∧ jsonLoadsStub "hello" = none := ⟨rfl, rfl⟩

/-- Claim C4 (amended): both steps take the first frame whose data is
non-empty and not "[DONE]" and parse it as JSON, but the parse-failure
pass-through (raw text printed, run exits 0) holds only for the tools/call
step; on the initialize step a parse failure aborts the run with exit 1. -/
theorem c4_first_frame_rule_amended :
    (∀ (parse : String → Option Json) (sid : Option String)
        (initLines : List String) (notif : Option Nat) (toolOk : Bool)
        (toolLines : List String) (d : String),
      firstQual initLines = some d → parse d = none →
      (streamableRun parse
        (StreamInput.mk true sid initLines notif toolOk toolLines)).exit = 1)
    ∧ (∀ (parse : String → Option Json) (sid : Option String)
        (initLines : List String) (notif : Option Nat)
        (toolLines : List String) (d : String) (j : Json),
      initReadLoop parse initLines = InitOut.got j → j.truthy = true →
      firstQual toolLines = some d → parse d = none →
      (streamableRun parse
        (StreamInput.mk true sid initLines notif true toolLines)).exit = 0
      ∧ streamToolLoop parse toolLines = ToolOut.printed (Printed.raw d)) := by
  constructor
  · intro parse sid initLines notif toolOk toolLines d h1 h2
    have hinit : initReadLoop parse initLines = InitOut.crash := by
      rw [initReadLoop_eq_firstQual, h1]
      simp [Option.elim, initStep, h2]
    simp [streamableRun, hinit]
  · intro parse sid initLines notif toolLines d j hin hj h1 h2
    have htl : streamToolLoop parse toolLines = ToolOut.printed (Printed.raw d) := by
      rw [streamToolLoop_eq_firstQual, h1]
      simp [Option.elim, dataStepStream, h2]
    refine ⟨?_, htl⟩
    simp [streamableRun, hin, hj, htl]

/-- Claim C4 witness: a non-JSON first frame aborts the initialize step,
while the same payload on the tools/call step passes through with exit 0. -/
theorem c4_first_frame_rule_amended_witness :
    (streamableRun jsonLoadsStub
      (StreamInput.mk true none ["data: hello"] (some 202) true [])).exit = 1
    ∧ (streamableRun jsonLoadsStub
      (StreamInput.mk true none ["data: true"] (some 202) true ["data: hello"])).exit = 0 :=
  ⟨c4_first_frame_rule_amended.1 jsonLoadsStub none ["data: hello"] (some 202)
      true [] "hello" rfl rfl,
   (c4_first_frame_rule_amended.2 jsonLoadsStub none ["data: true"] (some 202)
      ["data: hello"] "hello" (Json.bool true) rfl rfl rfl rfl).1⟩

/-- Claim C5: in the SSE response-reading phase no data line is acted on
before an "event: message" line has been seen — any run of lines free of
such an event line is skipped without effect, and a stream containing none
at all ends in the no-response branch. -/
theorem c5_skip_before_message :
    (∀ (parse : String → Option Json) (pre post : List String),
      pre.all (fun l => !isMsgEventLine l) = true →
      respLoop parse false (pre ++ post) = respLoop parse false post)
    ∧ (∀ (parse : String → Option Json) (lines : List String),
      lines.all (fun l => !isMsgEventLine l) = true →
      respLoop parse false lines = RespOutcome.noResponse) := by
  constructor
  · exact fun parse pre post h => respLoop_skip parse pre post h
  · intro parse lines h
    have hskip := respLoop_skip parse lines [] h
    rw [List.append_nil] at hskip
    rw [hskip]
    rfl

/-- Claim C5 witness: the endpoint-announcement frame and a non-message
event are skipped, and a stream with no message event yields no response. -/
theorem c5_skip_before_message_witness :
    respLoop jsonLoadsStub false
        (["data: x", "event: other"] ++ ["event: message", "data: true"])
      = respLoop jsonLoadsStub false ["event: message", "data: true"]
    ∧ respLoop jsonLoadsStub false ["data: true", "event: other"]
      = RespOutcome.noResponse :=
  ⟨c5_skip_before_message.1 jsonLoadsStub ["data: x", "event: other"]
      ["event: message", "data: true"] (by decide),
   c5_skip_before_message.2 jsonLoadsStub ["data: true", "event: other"]
      (by decide)⟩

/-- Claim C6: the SSE program's exit code is 0 exactly when a response
(decoded, unwrapped, or raw pass-through) was printed; connect failure, a
missing session id, a failed POST, and a stream ending with no qualifying
data frame each exit 1, the last as the "No response received" branch; a
raw (unparseable) payload is printed and still exits 0. -/
theorem c6_exit_code_policy :
    ∀ (parse : String → Option Json) (c : Bool) (lines : List String) (p : Bool),
      (exitCode (sseRun parse c lines p) = 0 ↔
        ∃ pr, sseRun parse c lines p = SseResult.resp (RespOutcome.response pr))
      ∧ (c = false → sseRun parse c lines p = SseResult.connectFail)
      ∧ ((sessionPhase lines).fst = none → c = true →
          sseRun parse c lines p = SseResult.noSession)
      ∧ (∀ sid rest, sessionPhase lines = (some sid, rest) → c = true →
          p = false → sseRun parse c lines p = SseResult.postFail)
      ∧ (∀ sid rest, sessionPhase lines = (some sid, rest) → c = true →
          p = true →
          sseRun parse c lines p = SseResult.resp (respLoop parse false rest)
          ∧ (hasQual false rest = false →
              respLoop parse false rest = RespOutcome.noResponse))
      ∧ (sseRun parse c lines p = SseResult.resp RespOutcome.noResponse →
          exitCode (sseRun parse c lines p) = 1)
      ∧ (∀ d, sseRun parse c lines p
            = SseResult.resp (RespOutcome.response (Printed.raw d)) →
          exitCode (sseRun parse c lines p) = 0) := by
  intro parse c lines p
  refine ⟨?_, ?_, ?_, ?_, ?_, ?_, ?_⟩
  · cases c with
    | false => simp [sseRun, exitCode]
    | true =>
      cases hsp : sessionPhase lines with
      | mk o rest =>
        cases o with
        | none => simp [sseRun, hsp, exitCode]
        | some sid =>
          cases p with
          | false => simp [sseRun, hsp, exitCode]
          | true =>
            cases hr : respLoop parse false rest with
            | response pr => simp [sseRun, hsp, hr, exitCode]
            | noResponse => simp [sseRun, hsp, hr, exitCode]
            | crash => simp [sseRun, hsp, hr, exitCode]
  · intro h; rw [h]; rfl
  · intro h hc
    subst hc
    cases hsp : sessionPhase lines with
    | mk o rest =>
      rw [hsp] at h
      simp only at h
      subst h
      simp [sseRun, hsp]
  · intro sid rest hsp hc hp
    subst hc; subst hp
    simp [sseRun, hsp]
  · intro sid rest hsp hc hp
    subst hc; subst hp
    constructor
    · simp [sseRun, hsp]
    · exact fun hq => (respLoop_noResponse_iff parse rest false).2 hq
  · intro h; rw [h]; rfl
  · intro d h; rw [h]; rfl

/-- Claim C6 witness: concrete failure paths exit 1. -/
theorem c6_exit_code_policy_witness :
    sseRun jsonLoadsStub false ["data: x"] true = SseResult.connectFail
    ∧ sseRun jsonLoadsStub true ["event: message"] true = SseResult.noSession :=
  ⟨(c6_exit_code_policy jsonLoadsStub false ["data: x"] true).2.1 rfl,
   (c6_exit_code_policy jsonLoadsStub true ["event: message"] true).2.2.1 rfl rfl⟩

/-- Claim C7 (code bug): when the decoded message's "result" is a non-empty
list whose first element is not an object (here the message with result
equal to the one-element list holding 5), both correlators raise an
uncaught exception instead of falling back to the outer message — while a
plain-object "result", the shape the claim gives as its example, does fall
back as claimed. -/
theorem c7_unwrap_crash_on_nonobject_item :
    correlateSse jsonLoadsStub "\x7b\"result\":[5]\x7d"
        (Json.obj [("result", Json.arr [Json.num 5])]) = CorrOut.crash
    ∧ correlateStream jsonLoadsStub "\x7b\"result\":[5]\x7d"
        (Json.obj [("result", Json.arr [Json.num 5])]) = CorrOut.crash
    ∧ respLoop jsonLoadsStub false
        ["event: message", "data: \x7b\"result\":[5]\x7d"] = RespOutcome.crash
    ∧ correlateSse jsonLoadsStub "\x7b\"result\":\x7b\"a\":1\x7d\x7d"
        (Json.obj [("result", Json.obj [("a", Json.num 1)])])
      = CorrOut.ok (Printed.outer (Json.obj [("result", Json.obj [("a", Json.num 1)])])) :=
  ⟨rfl, rfl, rfl, rfl⟩

/-- Claim C8, counterexample: when the initialize response carries an
Mcp-Session-Id header whose value is the empty string, the code sends NO
Mcp-Session-Id header on the notify and tools/call requests (Python
truthiness), contradicting "that exact string is sent". -/
theorem c8_session_header_cex :
    (streamableRun jsonLoadsStub
      (StreamInput.mk true (some "") ["data: true"] (some 202) true [])).notifHeader
      = some none
    ∧ (streamableRun jsonLoadsStub
      (StreamInput.mk true (some "") ["data: true"] (some 202) true [])).toolHeader
      = some none := ⟨rfl, rfl⟩

/-- Claim C8 (amended): if the initialize response carries a NON-EMPTY
Mcp-Session-Id header value, that exact string is sent as the
Mcp-Session-Id header on both the notifications/initialized POST and the
tools/call POST; if the header is absent (or its value empty) no
Mcp-Session-Id header is sent on either. -/
theorem c8_session_header_replay_amended :
    (∀ (parse : String → Option Json) (s : String) (initLines : List String)
        (notif : Option Nat) (toolOk : Bool) (toolLines : List String) (j : Json),
      s ≠ "" → initReadLoop parse initLines = InitOut.got j → j.truthy = true →
      (streamableRun parse
        (StreamInput.mk true (some s) initLines notif toolOk toolLines)).notifHeader
        = some (some s)
      ∧ (streamableRun parse
        (StreamInput.mk true (some s) initLines notif toolOk toolLines)).toolHeader
        = some (some s))
    ∧ (∀ (parse : String → Option Json) (initLines : List String)
        (notif : Option Nat) (toolOk : Bool) (toolLines : List String) (j : Json),
      initReadLoop parse initLines = InitOut.got j → j.truthy = true →
      (streamableRun parse
        (StreamInput.mk true none initLines notif toolOk toolLines)).notifHeader
        = some none
      ∧ (streamableRun parse
        (StreamInput.mk true none initLines notif toolOk toolLines)).toolHeader
        = some none) := by
  constructor
  · intro parse s initLines notif toolOk toolLines j hs hin hj
    have hs' : (s != "") = true := bne_iff_ne.2 hs
    cases toolOk with
    | false => constructor <;> simp [streamableRun, hin, hj, sessionHdrVal, hs']
    | true =>
      cases ht : streamToolLoop parse toolLines <;>
        exact ⟨by simp [streamableRun, hin, hj, sessionHdrVal, hs', ht],
               by simp [streamableRun, hin, hj, sessionHdrVal, hs', ht]⟩
  · intro parse initLines notif toolOk toolLines j hin hj
    cases toolOk with
    | false => constructor <;> simp [streamableRun, hin, hj, sessionHdrVal]
    | true =>
      cases ht : streamToolLoop parse toolLines <;>
        exact ⟨by simp [streamableRun, hin, hj, sessionHdrVal, ht],
               by simp [streamableRun, hin, hj, sessionHdrVal, ht]⟩

/-- Claim C8 witness: a non-empty captured session id is replayed verbatim
on both requests; with no header, neither request carries one. -/
theorem c8_session_header_replay_amended_witness :
    (streamableRun jsonLoadsStub
      (StreamInput.mk true (some "s1") ["data: true"] (some 202) true [])).notifHeader
      = some (some "s1")
    ∧ (streamableRun jsonLoadsStub
      (StreamInput.mk true none ["data: true"] (some 202) true [])).toolHeader
      = some none :=
  ⟨(c8_session_header_replay_amended.1 jsonLoadsStub "s1" ["data: true"]
      (some 202) true [] (Json.bool true) (by decide) rfl rfl).1,
   (c8_session_header_replay_amended.2 jsonLoadsStub ["data: true"]
      (some 202) true [] (Json.bool true) rfl rfl).2⟩

/-- Claim C9: the session resolver's returned token is always a non-empty
maximal run of characters from [A-Za-z0-9_-] immediately following
"sessionId=" in the payload; whenever such a pattern occurs the search
succeeds; on the spec's example the extracted id is exactly "abc-123_XYZ";
and if the stream ends with no matching data line the run reports the
no-session failure and exits 1. -/
theorem c9_session_resolver :
    (∀ (l tok : List Char),
      reSearchSession l = some tok →
      ∃ pre suf, l = pre ++ sidKey ++ tok ++ suf ∧ tok ≠ [] ∧
        tok.all isTokenChar = true ∧
        ∀ c, suf.head? = some c → isTokenChar c = false)
    ∧ (∀ (pre t suf : List Char), t ≠ [] → t.all isTokenChar = true →
        (reSearchSession (pre ++ sidKey ++ t ++ suf)).isSome = true)
    ∧ sessionPhase ["data: /message?sessionId=abc-123_XYZ"]
        = (some "abc-123_XYZ", [])
    ∧ (∀ (parse : String → Option Json) (lines : List String) (p : Bool),
        (sessionPhase lines).fst = none →
        sseRun parse true lines p = SseResult.noSession
        ∧ exitCode (sseRun parse true lines p) = 1) := by
  refine ⟨reSearchSession_sound, reSearchSession_complete, rfl, ?_⟩
  intro parse lines p h
  cases hsp : sessionPhase lines with
  | mk o rest =>
    rw [hsp] at h
    simp only at h
    subst h
    exact ⟨by simp [sseRun, hsp], by simp [sseRun, hsp, exitCode]⟩

/-- Claim C9 witness: the search succeeds on a concrete occurrence, and an
empty bootstrap stream yields the no-session failure. -/
theorem c9_session_resolver_witness :
    (reSearchSession ("/x?".toList ++ sidKey ++ "ab".toList ++ [])).isSome = true
    ∧ sseRun jsonLoadsStub true ["event: message"] true = SseResult.noSession :=
  ⟨c9_session_resolver.2.1 "/x?".toList "ab".toList [] (by decide) (by decide),
   (c9_session_resolver.2.2.2 jsonLoadsStub ["event: message"] true rfl).1⟩

/-- Claim C10: the outcome of the notifications/initialized step (exception
or any HTTP status) has no effect on the Streamable run: the exit code and
whether/how the tools/call request is issued are identical for any two
notification outcomes. -/
theorem c10_notify_failure_irrelevant :
    ∀ (parse : String → Option Json) (a : Bool) (b : Option String)
      (c : List String) (n₁ n₂ : Option Nat) (d : Bool) (e : List String),
      (streamableRun parse (StreamInput.mk a b c n₁ d e)).exit
        = (streamableRun parse (StreamInput.mk a b c n₂ d e)).exit
      ∧ (streamableRun parse (StreamInput.mk a b c n₁ d e)).toolHeader
        = (streamableRun parse (StreamInput.mk a b c n₂ d e)).toolHeader := by
  intro parse a b c n₁ n₂ d e
  exact ⟨rfl, rfl⟩
